import Mathlib

/-!
Verification of the colorino frame application (src/unnamed/part_002).

We shallowly embed the two flows of the app as pure Lean functions:

* the image compositor (the renderFinalImage effect body),
* the credential handshake and profile-picture change (the setPfp
  callback), together with downloadFilteredImage.

Every HTTP interaction is resolved through an explicit environment
(`Env` and `RenderEnv`) that plays the role of the network: it holds,
for each remote endpoint, the success flag and the payload fields the
code reads from the response.  The poll loop of setPfp is unbounded in
the source (while true), so it is embedded with an explicit fuel
parameter; the outcome `none` means the loop is still running after
that many iterations.

Side effects (network calls, timer waits, jotai atom writes, toasts)
are recorded in an event trace `List Ev`, in program order, so that
claims about which calls a flow performs and when the credential cache
is written can be stated as properties of the trace.
-/

namespace Colorino

/-- A JSON scalar value, as it appears in a request body built with
JSON.stringify in the source. -/
inductive JVal where
  | str (s : String)
  | num (n : Nat)
  deriving DecidableEq, Repr

/-- Observable events of the setPfp / downloadFilteredImage flows, in
program order.  Network calls carry the data the source puts into the
request; atom writes carry the written value. -/
inductive Ev where
  /-- ed25519.utils.randomPrivateKey / getPublicKey (local, no network). -/
  | generateKeypair
  /-- GET signer.colorino.site/signature?key=...&deadline=... -/
  | signatureRequest (key : String) (deadline : Nat)
  /-- POST api.warpcast.com/v2/signed-key-requests with the given JSON body
  (field name / value pairs in the order JSON.stringify serializes them). -/
  | createSignedKeyRequest (body : List (String × JVal))
  /-- await new Promise(resolve => setTimeout(resolve, ms)) inside the poll loop. -/
  | pollWait (ms : Nat)
  /-- GET api.warpcast.com/v2/signed-key-request?token=... -/
  | pollRequest (token : String)
  /-- POST images.colorino.site/upload with body { data }. -/
  | upload (data : String)
  /-- POST signer.colorino.site/change-pfp with the given JSON body. -/
  | changePfp (body : List (String × JVal))
  /-- frameSdk.actions.openUrl. -/
  | openUrl (url : String)
  /-- setSignerAtomValue write (the credential cache). -/
  | setSigner (v : Option String)
  /-- setDeepLinkUrl write. -/
  | setDeepLink (v : Option String)
  /-- toast.error notification. -/
  | toastError (msg : String)
  /-- toast.success notification. -/
  | toastSuccess (msg : String)
  deriving DecidableEq, Repr

/-- The response the environment gives to one poll request:
pollRes.ok, pollRes.statusText, and result.signedKeyRequest.state. -/
structure PollResp where
  ok : Bool
  statusText : String
  state : String
  deriving DecidableEq, Repr

/-- The freshly generated ed25519 keypair, already hex encoded with
toHex: privHex is toHex(privateKey), pubHex is toHex(getPublicKey(privateKey)).
Key generation is an entropy source, so the pair is supplied by the
environment. -/
structure Keypair where
  privHex : String
  pubHex : String
  deriving DecidableEq, Repr

/-- The network / platform environment of one setPfp (or
downloadFilteredImage) run: for each endpoint, the success flag and the
payload fields the source reads out of the response.  pollResp i is the
response to the i-th poll request. -/
structure Env where
  keypair : Keypair
  /-- Date.now() in milliseconds. -/
  now : Nat
  sigOk : Bool
  signature : String
  skrOk : Bool
  skrStatusText : String
  token : String
  deeplinkUrl : String
  pollResp : Nat → PollResp
  uploadOk : Bool
  uploadStatusText : String
  uploadHash : String
  changeOk : Bool
  changeStatusText : String

/-- Outcome of inspecting one poll response, following the body of the
while-true loop: a non-ok response throws, state "completed" returns,
anything else loops. -/
inductive PollOutcome where
  | error
  | completed
  | continued
  deriving DecidableEq, Repr

/-- How the poll loop reacts to the i-th response. -/
def pollStep (env : Env) (i : Nat) : PollOutcome :=
  let r := env.pollResp i
  if r.ok = false then .error
  else if r.state = "completed" then .completed
  else .continued

/-- The events of one poll iteration: the fixed 2000 ms wait, then the
status request.  The interval is a literal in the source (setTimeout
with 2000), identical on every iteration. -/
def pollIterEvents (token : String) : List Ev :=
  [Ev.pollWait 2000, Ev.pollRequest token]

/-- The poll loop of setPfp step 5, embedded with fuel: starting at
iteration index i with the given fuel, return the outcome (none while
still running) and the events emitted.  Each iteration waits 2000 ms,
issues the status request, throws on a non-ok response, returns on
state "completed", and otherwise repeats. -/
def poll (env : Env) (token : String) : Nat → Nat → Option (Except String Unit) × List Ev
  | _, 0 => (none, [])
  | i, fuel + 1 =>
    let r := env.pollResp i
    let evs := pollIterEvents token
    if r.ok = false then
      (some (.error ("Polling error: " ++ r.statusText)), evs)
    else if r.state = "completed" then
      (some (.ok ()), evs)
    else
      let rest := poll env token (i + 1) fuel
      (rest.1, evs ++ rest.2)

/-- The hardcoded requester fid used for the signed key request
(const fid = 990688 in the source). -/
def requestFid : Nat := 990688

/-- The redirectUrl literal sent in the signed-key-request body. -/
def skrRedirectUrl : String := "https://warpcast.com/?launchFrameDomain=colorino.site"

/-- The JSON body of the signed-key-request creation call, with the
fields in the order the source lists them. -/
def skrBody (key : String) (signature : String) (deadline : Nat) : List (String × JVal) :=
  [("key", .str key), ("requestFid", .num requestFid), ("signature", .str signature),
   ("deadline", .num deadline), ("redirectUrl", .str skrRedirectUrl)]

/-- Result of a setPfp run: the outcome of the try block (none while the
poll loop is still running at the given fuel) and the full event
trace.  On an error, the trace already includes the catch block's
setSignerAtomValue(null) and toast.error. -/
structure PfpResult where
  outcome : Option (Except String Unit)
  events : List Ev
  deriving Repr

/-- Image host prefix used to build the retrievable URL from the upload
response's hash field. -/
def imageUrlOfHash (hash : String) : String :=
  "https://images.colorino.site/" ++ hash ++ ".png"

/-- Steps 6 and 7 of setPfp (shared by the cached-credential and the
fresh-handshake paths): upload the rendered composite, build the image
URL from the response hash, then post the change-pfp request.
signerPrivateKey is the local variable of the source at that point
(hex encoded; for the cached path toHex(toBytes s) round-trips to s). -/
def finishPfp (env : Env) (renderedSrc : String) (userFid : Nat)
    (signerPrivateKey : Option String) : Except String Unit × List Ev :=
  let evUp := Ev.upload renderedSrc
  if env.uploadOk = false then
    (.error ("Upload failed: " ++ env.uploadStatusText), [evUp])
  else
    let imageUrl := imageUrlOfHash env.uploadHash
    match signerPrivateKey with
    | none => (.error "No signer key found", [evUp])
    | some sk =>
      let body : List (String × JVal) :=
        [("privateKey", .str sk), ("pfp", .str imageUrl), ("fid", .num userFid)]
      let evCh := Ev.changePfp body
      if env.changeOk = false then
        (.error ("Changing pfp failed: " ++ env.changeStatusText), [evUp, evCh])
      else
        (.ok (), [evUp, evCh])

/-- Steps 1-5 of setPfp (the handshake run when no credential is
cached): keypair generation, signature request, signed-key-request
creation, caching of the private key and display of the deep link, then
the poll loop.  Returns (none, evs) while the poll loop is still
running, some (.error e) on a thrown error, and some (.ok privHex) once
polling observed state "completed". -/
def handshake (env : Env) (fuel : Nat) : Option (Except String String) × List Ev :=
  let key := env.keypair.pubHex
  let privateKeyString := env.keypair.privHex
  let deadline := env.now / 1000 + 60 * 60
  let ev1 := [Ev.generateKeypair, Ev.signatureRequest key deadline]
  if env.sigOk = false then
    (some (.error "Failed to obtain signature from signer server"), ev1)
  else
    let ev2 := ev1 ++ [Ev.createSignedKeyRequest (skrBody key env.signature deadline)]
    if env.skrOk = false then
      (some (.error ("Warpcast API error: " ++ env.skrStatusText)), ev2)
    else
      let ev3 := ev2 ++ [Ev.setSigner (some privateKeyString), Ev.setDeepLink (some env.deeplinkUrl)]
      let p := poll env env.token 0 fuel
      match p.1 with
      | none => (none, ev3 ++ p.2)
      | some (.error e) => (some (.error e), ev3 ++ p.2)
      | some (.ok _) =>
        (some (.ok privateKeyString),
         ev3 ++ p.2 ++ [Ev.setSigner (some privateKeyString), Ev.setDeepLink none])

/-- The events the tail of setPfp's try/catch emits: on success the
success toast (step 8); on a thrown error the catch block's
setSignerAtomValue(null) followed by the error toast. -/
def catchTail : Except String Unit → List Ev
  | .ok _ => [Ev.toastSuccess "Profile picture set successfully!"]
  | .error e => [Ev.setSigner none, Ev.toastError ("Error setting profile picture: " ++ e)]

/-- Package the try block's outcome and events with the catch / success
tail appended. -/
def wrapCatch (out : Except String Unit) (evs : List Ev) : PfpResult :=
  { outcome := some out, events := evs ++ catchTail out }

/-- The setPfp callback.  signerAtomValue is the cached credential at
invocation; renderedSrc the current composite data URL; userFid
context.user.fid.  If a credential is cached, the handshake is skipped
entirely and signerPrivateKey is recovered from the cache
(toBytes then toHex round-trip); otherwise the handshake runs first.
While the poll loop is still running (fuel exhausted) the outcome is
none and the trace shows the run so far. -/
def setPfp (env : Env) (signerAtomValue : Option String) (renderedSrc : String)
    (userFid : Nat) (fuel : Nat) : PfpResult :=
  match signerAtomValue with
  | some s =>
    let f := finishPfp env renderedSrc userFid (some s)
    wrapCatch f.1 f.2
  | none =>
    let h := handshake env fuel
    match h.1 with
    | none => { outcome := none, events := h.2 }
    | some (.error e) => wrapCatch (.error e) h.2
    | some (.ok pk) =>
      let f := finishPfp env renderedSrc userFid (some pk)
      wrapCatch f.1 (h.2 ++ f.2)

/-- The downloadFilteredImage handler: upload the composite, build the
image URL from the hash, open it.  Returns the opened URL on success. -/
def downloadFilteredImage (env : Env) (renderedSrc : String) :
    Except String String × List Ev :=
  let evUp := Ev.upload renderedSrc
  if env.uploadOk = false then
    (.error ("Upload failed: " ++ env.uploadStatusText), [evUp])
  else
    let imageUrl := imageUrlOfHash env.uploadHash
    (.ok imageUrl, [evUp, Ev.openUrl imageUrl])

/-- Value of the signer atom after replaying the setSigner writes of a
trace over an initial value. -/
def signerAfter (init : Option String) : List Ev → Option String
  | [] => init
  | Ev.setSigner v :: rest => signerAfter v rest
  | _ :: rest => signerAfter init rest

/-- Is the event one of the handshake steps (keypair generation,
signature request, signed-key-request creation, poll wait or poll
request)? -/
def isHandshakeEv : Ev → Bool
  | Ev.generateKeypair => true
  | Ev.signatureRequest _ _ => true
  | Ev.createSignedKeyRequest _ => true
  | Ev.pollWait _ => true
  | Ev.pollRequest _ => true
  | _ => false

/-- Is the event a network call? -/
def isCall : Ev → Bool
  | Ev.signatureRequest _ _ => true
  | Ev.createSignedKeyRequest _ => true
  | Ev.pollRequest _ => true
  | Ev.upload _ => true
  | Ev.changePfp _ => true
  | _ => false

/-- The network calls of a trace, in order. -/
def callsOf (evs : List Ev) : List Ev := evs.filter isCall

/-- The bodies of the signed-key-request creation calls of a trace. -/
def skrBodiesOf (evs : List Ev) : List (List (String × JVal)) :=
  evs.filterMap fun e =>
    match e with
    | Ev.createSignedKeyRequest b => some b
    | _ => none

/-- The bodies of the change-pfp calls of a trace. -/
def changePfpBodiesOf (evs : List Ev) : List (List (String × JVal)) :=
  evs.filterMap fun e =>
    match e with
    | Ev.changePfp b => some b
    | _ => none

/-! ## The image compositor (the renderFinalImage effect body) -/

/-- A drawing operation performed on the 2D context, with coordinates in
canvas pixels (rationals: the source computes them with JS number
division, which is exact on these inputs). -/
inductive DrawOp where
  /-- ctx.filter assignment. -/
  | setFilter (f : String)
  /-- 9-argument ctx.drawImage: source rect (sx, sy, sw, sh) to dest rect. -/
  | drawImageCrop (src : String) (sx sy sw sh dx dy dw dh : ℚ)
  /-- 5-argument ctx.drawImage: dest rect only. -/
  | drawImageRect (src : String) (dx dy dw dh : ℚ)
  deriving DecidableEq, Repr

/-- The canvas produced by one successful render: its dimensions and the
drawing operations performed on its context, in order. -/
structure Canvas where
  width : ℚ
  height : ℚ
  ops : List DrawOp
  deriving DecidableEq, Repr

/-- The colorFilters record of the source.  A lookup with any other key
yields undefined, which leaves ctx.filter at its default "none"; only
the four keys below are ever selectable in the UI. -/
def colorFilters : String → String
  | "original" => "none"
  | "red" => "grayscale(1) sepia(1) saturate(5000%) hue-rotate(0deg)"
  | "green" => "grayscale(1) sepia(1) saturate(5000%) hue-rotate(100deg)"
  | "blue" => "grayscale(1) sepia(1) saturate(5000%) hue-rotate(200deg)"
  | _ => "none"

/-- The square crop of the source image, mimicking object-fit cover:
(sx, sy, sSize).  Landscape or square (naturalWidth >= naturalHeight)
crops horizontally, portrait crops vertically. -/
def cropRegion (w h : ℚ) : ℚ × ℚ × ℚ :=
  if h ≤ w then ((w - h) / 2, 0, h) else (0, (h - w) / 2, w)

/-- canvas.toDataURL("image/png"): a deterministic encoding of the
canvas contents as a data URL string. -/
def canvasToDataUrl (c : Canvas) : String :=
  "data:image/png;base64," ++ toString (repr c.width) ++ "x"
    ++ toString (repr c.height) ++ ";" ++ toString (repr c.ops)

/-- The sticker state: position and size relative to the displayed image
container, plus the visibility flag. -/
structure Sticker where
  visible : Bool
  x : ℚ
  y : ℚ
  width : ℚ
  height : ℚ
  deriving DecidableEq, Repr

/-- The browser-side environment of one renderFinalImage run: the base
image URL and natural dimensions, whether the loads succeed, whether a
2D context is available, whether containerRef.current is set, and the
displayed container width from getBoundingClientRect. -/
structure RenderEnv where
  pfpUrl : Option String
  imgLoadOk : Bool
  naturalWidth : ℚ
  naturalHeight : ℚ
  ctxAvailable : Bool
  containerPresent : Bool
  rectWidth : ℚ
  stickerLoadOk : Bool

/-- Result of one renderFinalImage run: the try block's outcome, the
canvas produced (none if the run threw before completing it), and the
value of the renderedSrc state afterwards (setRenderedSrc only runs at
the very end of the try block, so it is the old value on any error). -/
structure RenderResult where
  outcome : Except String Unit
  canvas : Option Canvas
  renderedSrc : String
  deriving Repr

/-- The renderFinalImage effect body: load the base image, compute the
centered square crop, draw it through the selected color filter onto a
square canvas of the crop size, optionally load and draw the sticker
scaled by (canvas size / displayed container width), and store the
encoded canvas into renderedSrc. -/
def renderFinalImage (env : RenderEnv) (color : String) (sticker : Sticker)
    (renderedSrc : String) : RenderResult :=
  match env.pfpUrl with
  | none => ⟨.error "No PFP URL found", none, renderedSrc⟩
  | some u =>
    if env.imgLoadOk = false then
      ⟨.error "Failed to load image", none, renderedSrc⟩
    else
      let crop := cropRegion env.naturalWidth env.naturalHeight
      let sx := crop.1
      let sy := crop.2.1
      let sSize := crop.2.2
      if env.ctxAvailable = false then
        ⟨.error "Could not get 2D context", none, renderedSrc⟩
      else
        let baseOps := [DrawOp.setFilter (colorFilters color),
                        DrawOp.drawImageCrop u sx sy sSize sSize 0 0 sSize sSize]
        if sticker.visible && env.containerPresent then
          if env.stickerLoadOk = false then
            ⟨.error "Failed to load sticker", none, renderedSrc⟩
          else
            let factor := sSize / env.rectWidth
            let c : Canvas := ⟨sSize, sSize,
              baseOps ++ [DrawOp.drawImageRect "sticker.png" (sticker.x * factor)
                (sticker.y * factor) (sticker.width * factor) (sticker.height * factor)]⟩
            ⟨.ok (), some c, canvasToDataUrl c⟩
        else
          let c : Canvas := ⟨sSize, sSize, baseOps⟩
          ⟨.ok (), some c, canvasToDataUrl c⟩

/-! ## Concrete environments used to evaluate the model on closed inputs -/

/-- A poll response that is ok but still pending. -/
def pendingResp : PollResp := ⟨true, "OK", "pending"⟩

/-- A fully successful environment whose poll responses stay pending
forever. -/
def envBase : Env where
  keypair := ⟨"0xpriv", "0xpub"⟩
  now := 1700000000000
  sigOk := true
  signature := "0xsig"
  skrOk := true
  skrStatusText := "Bad Request"
  token := "tok1"
  deeplinkUrl := "farcaster://signed-key-request?token=tok1"
  pollResp := fun _ => pendingResp
  uploadOk := true
  uploadStatusText := "Server Error"
  uploadHash := "abc123"
  changeOk := true
  changeStatusText := "Server Error"

/-- envBase with a failing signature endpoint. -/
def envSigFail : Env := { envBase with sigOk := false }

/-- envBase with a failing signed-key-requests endpoint. -/
def envSkrFail : Env := { envBase with skrOk := false }

/-- envBase with a failing upload endpoint. -/
def envUploadFail : Env := { envBase with uploadOk := false }

/-- envBase with a failing change-pfp endpoint. -/
def envChangeFail : Env := { envBase with changeOk := false }

/-- envBase whose first poll response already reports completion. -/
def envPollDone : Env := { envBase with pollResp := fun _ => ⟨true, "OK", "completed"⟩ }

/-- envBase whose first poll response is an HTTP failure. -/
def envPollErr : Env := { envBase with pollResp := fun _ => ⟨false, "Server Error", ""⟩ }

/-- A hidden sticker with the default placement. -/
def stHidden : Sticker := ⟨false, 20, 20, 100, 100⟩

/-- A visible sticker with the default placement. -/
def stShown : Sticker := ⟨true, 20, 20, 100, 100⟩

/-- A healthy render environment with a landscape 800 x 600 source. -/
def renvL : RenderEnv where
  pfpUrl := some "https://pfp.example/a.png"
  imgLoadOk := true
  naturalWidth := 800
  naturalHeight := 600
  ctxAvailable := true
  containerPresent := true
  rectWidth := 300
  stickerLoadOk := true

/-- renvL with a portrait 600 x 800 source. -/
def renvP : RenderEnv := { renvL with naturalWidth := 600, naturalHeight := 800 }

/-- renvL without a 2D context. -/
def renvNoCtx : RenderEnv := { renvL with ctxAvailable := false }

/-- The canvas renvL with filter "red" and a hidden sticker produces:
a 600 x 600 square holding the centered crop of the 800 x 600 source. -/
def cL : Canvas :=
  ⟨600, 600, [DrawOp.setFilter (colorFilters "red"),
    DrawOp.drawImageCrop "https://pfp.example/a.png" 100 0 600 600 0 0 600 600]⟩

/-! ## Helper lemmas about the poll loop -/

theorem pollStep_eq_error_iff (env : Env) (i : Nat) :
    pollStep env i = .error ↔ (env.pollResp i).ok = false := by
  unfold pollStep
  by_cases h1 : (env.pollResp i).ok = false
  · simp [h1]
  · by_cases h2 : (env.pollResp i).state = "completed" <;> simp [h1, h2]

theorem pollStep_eq_completed_iff (env : Env) (i : Nat) :
    pollStep env i = .completed ↔
      ¬ (env.pollResp i).ok = false ∧ (env.pollResp i).state = "completed" := by
  unfold pollStep
  by_cases h1 : (env.pollResp i).ok = false
  · simp [h1]
  · by_cases h2 : (env.pollResp i).state = "completed" <;> simp [h1, h2]

theorem pollStep_eq_continued_iff (env : Env) (i : Nat) :
    pollStep env i = .continued ↔
      ¬ (env.pollResp i).ok = false ∧ ¬ (env.pollResp i).state = "completed" := by
  unfold pollStep
  by_cases h1 : (env.pollResp i).ok = false
  · simp [h1]
  · by_cases h2 : (env.pollResp i).state = "completed" <;> simp [h1, h2]

theorem poll_trace_shape (env : Env) (tok : String) :
    ∀ fuel i, ∃ k, (poll env tok i fuel).2 = (List.replicate k (pollIterEvents tok)).flatten := by
  intro fuel
  induction fuel with
  | zero => intro i; exact ⟨0, rfl⟩
  | succ fuel ih =>
    intro i
    by_cases h1 : (env.pollResp i).ok = false
    · exact ⟨1, by simp [poll, h1]⟩
    · by_cases h2 : (env.pollResp i).state = "completed"
      · exact ⟨1, by simp [poll, h1, h2]⟩
      · obtain ⟨k, hk⟩ := ih (i + 1)
        exact ⟨k + 1, by simp [poll, h1, h2, hk, List.replicate_succ]⟩

theorem poll_ok_iff (env : Env) (tok : String) :
    ∀ fuel i, (poll env tok i fuel).1 = some (.ok ()) ↔
      ∃ j, i ≤ j ∧ j < i + fuel ∧ pollStep env j = .completed ∧
        ∀ m, i ≤ m → m < j → pollStep env m = .continued := by
  intro fuel
  induction fuel with
  | zero =>
    intro i
    constructor
    · intro h; simp [poll] at h
    · rintro ⟨j, hij, hlt, -, -⟩; omega
  | succ fuel ih =>
    intro i
    by_cases h1 : (env.pollResp i).ok = false
    · constructor
      · intro h; simp [poll, h1] at h
      · rintro ⟨j, hij, -, hcomp, hmin⟩
        rcases Nat.eq_or_lt_of_le hij with rfl | hlt2
        · rw [pollStep_eq_completed_iff] at hcomp
          exact absurd h1 hcomp.1
        · have hc := hmin i (le_refl i) hlt2
          rw [pollStep_eq_continued_iff] at hc
          exact absurd h1 hc.1
    · by_cases h2 : (env.pollResp i).state = "completed"
      · constructor
        · intro _
          refine ⟨i, le_refl i, by omega, ?_, fun m h3 h4 => by omega⟩
          rw [pollStep_eq_completed_iff]
          exact ⟨h1, h2⟩
        · intro _
          simp [poll, h1, h2]
      · have hred : (poll env tok i (fuel + 1)).1 = (poll env tok (i + 1) fuel).1 := by
          simp [poll, h1, h2]
        rw [hred, ih (i + 1)]
        constructor
        · rintro ⟨j, hij, hlt, hcomp, hmin⟩
          refine ⟨j, by omega, by omega, hcomp, ?_⟩
          intro m hm1 hm2
          rcases Nat.eq_or_lt_of_le hm1 with rfl | h
          · rw [pollStep_eq_continued_iff]; exact ⟨h1, h2⟩
          · exact hmin m h hm2
        · rintro ⟨j, hij, hlt, hcomp, hmin⟩
          have hji : i ≠ j := by
            intro h
            subst h
            rw [pollStep_eq_completed_iff] at hcomp
            exact absurd hcomp.2 h2
          exact ⟨j, by omega, by omega, hcomp, fun m hm1 hm2 => hmin m (by omega) hm2⟩

theorem poll_error_of_step (env : Env) (tok : String) :
    ∀ fuel i j, i ≤ j → j < i + fuel → pollStep env j = .error →
      (∀ m, i ≤ m → m < j → pollStep env m = .continued) →
      (poll env tok i fuel).1 =
        some (.error ("Polling error: " ++ (env.pollResp j).statusText)) := by
  intro fuel
  induction fuel with
  | zero => intro i j h1 h2 _ _; omega
  | succ fuel ih =>
    intro i j hij hlt herr hmin
    rcases Nat.eq_or_lt_of_le hij with rfl | hlt2
    · rw [pollStep_eq_error_iff] at herr
      simp [poll, herr]
    · have hc := hmin i (le_refl i) hlt2
      rw [pollStep_eq_continued_iff] at hc
      have hred : (poll env tok i (fuel + 1)).1 = (poll env tok (i + 1) fuel).1 := by
        simp [poll, hc.1, hc.2]
      rw [hred]
      exact ih (i + 1) j (by omega) (by omega) herr (fun m hm1 hm2 => hmin m (by omega) hm2)

theorem poll_pending_forever (env : Env) (tok : String)
    (h : ∀ m, pollStep env m = .continued) : ∀ fuel i, (poll env tok i fuel).1 = none := by
  intro fuel
  induction fuel with
  | zero => intro i; rfl
  | succ fuel ih =>
    intro i
    have h1 := (pollStep_eq_continued_iff env i).1 (h i)
    simp [poll, h1.1, h1.2, ih (i + 1)]

/-- Every event the poll loop emits is either the fixed 2000 ms wait or
a status request for the token. -/
theorem poll_events_mem (env : Env) (tok : String) (fuel i : Nat) (e : Ev)
    (he : e ∈ (poll env tok i fuel).2) :
    e = Ev.pollWait 2000 ∨ e = Ev.pollRequest tok := by
  obtain ⟨k, hk⟩ := poll_trace_shape env tok fuel i
  rw [hk, List.mem_flatten] at he
  obtain ⟨l, hl, hel⟩ := he
  have h2 := List.eq_of_mem_replicate hl
  subst h2
  simp only [pollIterEvents, List.mem_cons, List.mem_singleton] at hel
  simpa using hel

/-- Every event the upload / change-pfp tail emits is the upload call or
a change-pfp call. -/
theorem finishPfp_events_mem (env : Env) (src : String) (fid : Nat) (sk : Option String)
    (e : Ev) (he : e ∈ (finishPfp env src fid sk).2) :
    e = Ev.upload src ∨ ∃ b, e = Ev.changePfp b := by
  by_cases hu : env.uploadOk = false
  · simp only [finishPfp, hu, if_true, eq_self_iff_true, List.mem_singleton] at he
    exact Or.inl (by simpa using he)
  · cases sk with
    | none =>
      simp only [finishPfp, hu, if_false, ite_false] at he
      simp at he
      exact Or.inl he
    | some s =>
      by_cases hc : env.changeOk = false <;>
        · simp [finishPfp, hu, hc] at he
          rcases he with rfl | rfl
          · exact Or.inl rfl
          · exact Or.inr ⟨_, rfl⟩

/-- Every event of the catch / success tail is the credential reset, an
error toast or the success toast. -/
theorem catchTail_mem (out : Except String Unit) (e : Ev) (he : e ∈ catchTail out) :
    e = Ev.setSigner none ∨ (∃ m, e = Ev.toastError m) ∨ ∃ m, e = Ev.toastSuccess m := by
  cases out with
  | ok u =>
    simp only [catchTail, List.mem_singleton] at he
    exact Or.inr (Or.inr ⟨_, he⟩)
  | error er =>
    simp only [catchTail, List.mem_cons, List.mem_singleton] at he
    rcases he with rfl | rfl | h
    · exact Or.inl rfl
    · exact Or.inr (Or.inl ⟨_, rfl⟩)
    · simp at h

theorem skrBodiesOf_append (l1 l2 : List Ev) :
    skrBodiesOf (l1 ++ l2) = skrBodiesOf l1 ++ skrBodiesOf l2 := by
  simp [skrBodiesOf]

/-- The poll loop issues no signed-key-request creation call. -/
theorem skrBodiesOf_poll (env : Env) (tok : String) (fuel i : Nat) :
    skrBodiesOf (poll env tok i fuel).2 = [] := by
  rw [skrBodiesOf, List.filterMap_eq_nil_iff]
  intro e he
  rcases poll_events_mem env tok fuel i e he with rfl | rfl <;> rfl

/-- The upload / change-pfp tail issues no signed-key-request creation
call. -/
theorem skrBodiesOf_finish (env : Env) (src : String) (fid : Nat) (sk : Option String) :
    skrBodiesOf (finishPfp env src fid sk).2 = [] := by
  rw [skrBodiesOf, List.filterMap_eq_nil_iff]
  intro e he
  rcases finishPfp_events_mem env src fid sk e he with rfl | ⟨b, rfl⟩ <;> rfl

theorem skrBodiesOf_catchTail (out : Except String Unit) :
    skrBodiesOf (catchTail out) = [] := by
  cases out <;> rfl

/-- Replaying the signer writes of a concatenated trace replays the
second part over the result of the first. -/
theorem signerAfter_append (init : Option String) (l1 l2 : List Ev) :
    signerAfter init (l1 ++ l2) = signerAfter (signerAfter init l1) l2 := by
  induction l1 generalizing init with
  | nil => rfl
  | cons e rest ih => cases e <;> simp [signerAfter, ih]

/-! ## Claim theorems -/

/-- C2: the AwaitingApproval poll loop waits a fixed 2000 ms before each
status request for the token, with no backoff (every run's trace is a
flat repetition of the wait-2000-then-request block, one request per
iteration); it returns successfully iff some received poll response
reports state "completed" (all earlier ones being ok and pending); a
non-success HTTP status reached by the loop raises a polling error; and
if every response is ok but never "completed", the loop never
terminates at any fuel (no maximum attempt count, no timeout). -/
theorem poll_loop_spec (env : Env) (tok : String) :
    (∀ fuel i, ∃ k, (poll env tok i fuel).2 = (List.replicate k (pollIterEvents tok)).flatten) ∧
    ((∃ fuel, (poll env tok 0 fuel).1 = some (.ok ())) ↔
      ∃ j, pollStep env j = .completed ∧ ∀ m, m < j → pollStep env m = .continued) ∧
    (∀ j fuel, j < fuel → pollStep env j = .error →
      (∀ m, m < j → pollStep env m = .continued) →
      (poll env tok 0 fuel).1 =
        some (.error ("Polling error: " ++ (env.pollResp j).statusText))) ∧
    ((∀ m, pollStep env m = .continued) → ∀ fuel, (poll env tok 0 fuel).1 = none) := by
  refine ⟨poll_trace_shape env tok, ?_, ?_, ?_⟩
  · constructor
    · rintro ⟨fuel, h⟩
      obtain ⟨j, -, -, hc, hm⟩ := (poll_ok_iff env tok fuel 0).1 h
      exact ⟨j, hc, fun m hm2 => hm m (Nat.zero_le m) hm2⟩
    · rintro ⟨j, hc, hm⟩
      exact ⟨j + 1, (poll_ok_iff env tok (j + 1) 0).2
        ⟨j, Nat.zero_le j, by omega, hc, fun m _ h2 => hm m h2⟩⟩
  · intro j fuel hj he hm
    exact poll_error_of_step env tok fuel 0 j (Nat.zero_le j) (by omega) he
      (fun m _ h2 => hm m h2)
  · intro h fuel
    exact poll_pending_forever env tok h fuel 0

/-- Witness for C2: on the always-pending environment three poll
iterations are still running, and on an environment whose first response
is an HTTP failure the loop raises the polling error. -/
theorem poll_loop_spec_witness :
    (poll envBase "tok1" 0 3).1 = none ∧
    (poll envPollErr "tok1" 0 2).1 = some (.error "Polling error: Server Error") := by
  constructor
  · exact (poll_loop_spec envBase "tok1").2.2.2 (fun _ => rfl) 3
  · exact (poll_loop_spec envPollErr "tok1").2.2.1 0 2 (by omega) rfl
      (fun m hm => absurd hm (by omega))

/-- C1: when a cached credential is present, setPfp performs no keypair
generation, no signature request, no signed-key-request creation and no
polling (no handshake event appears in its trace, for every
environment), and when the upload call succeeds its network calls are
exactly the image upload followed by the change-pfp call. -/
theorem setPfp_cached_skips_handshake (env : Env) (s renderedSrc : String)
    (userFid fuel : Nat) :
    (∀ e ∈ (setPfp env (some s) renderedSrc userFid fuel).events, isHandshakeEv e = false) ∧
    (env.uploadOk = true →
      callsOf (setPfp env (some s) renderedSrc userFid fuel).events =
        [Ev.upload renderedSrc,
         Ev.changePfp [("privateKey", .str s), ("pfp", .str (imageUrlOfHash env.uploadHash)),
           ("fid", .num userFid)]]) := by
  cases hu : env.uploadOk with
  | false =>
    constructor
    · intro e he
      simp [setPfp, finishPfp, wrapCatch, catchTail, hu] at he
      rcases he with rfl | rfl | rfl <;> rfl
    · intro h
      simp at h
  | true =>
    cases hc : env.changeOk with
    | false =>
      constructor
      · intro e he
        simp [setPfp, finishPfp, wrapCatch, catchTail, hu, hc] at he
        rcases he with rfl | rfl | rfl | rfl <;> rfl
      · intro _
        simp [setPfp, finishPfp, wrapCatch, catchTail, callsOf, isCall, hu, hc]
    | true =>
      constructor
      · intro e he
        simp [setPfp, finishPfp, wrapCatch, catchTail, hu, hc] at he
        rcases he with rfl | rfl | rfl <;> rfl
      · intro _
        simp [setPfp, finishPfp, wrapCatch, catchTail, callsOf, isCall, hu, hc]

/-- Witness for C1: on the all-successful environment with a cached
credential the calls are exactly the upload and the change-pfp call. -/
theorem setPfp_cached_skips_handshake_witness :
    envBase.uploadOk = true ∧
    callsOf (setPfp envBase (some "0xcached") "data" 7 0).events =
      [Ev.upload "data",
       Ev.changePfp [("privateKey", .str "0xcached"),
         ("pfp", .str "https://images.colorino.site/abc123.png"), ("fid", .num 7)]] :=
  ⟨rfl, (setPfp_cached_skips_handshake envBase "0xcached" "data" 7 0).2 rfl⟩

/-- C3: a handshake run that starts without a credential and fails at
the signature-request step terminates with that error, the signer atom
is null afterwards (the catch block clears it), and nothing beyond the
signature request was performed: the system is back in the
pre-handshake NoCredential state. -/
theorem setPfp_sigFailure_resets (env : Env) (src : String) (fid fuel : Nat)
    (h : env.sigOk = false) :
    (setPfp env none src fid fuel).outcome =
      some (.error "Failed to obtain signature from signer server") ∧
    signerAfter none (setPfp env none src fid fuel).events = none ∧
    callsOf (setPfp env none src fid fuel).events =
      [Ev.signatureRequest env.keypair.pubHex (env.now / 1000 + 60 * 60)] := by
  refine ⟨?_, ?_, ?_⟩ <;>
    simp [setPfp, handshake, wrapCatch, catchTail, h, signerAfter, callsOf, isCall]

/-- Witness for C3: the concrete environment with a failing signature
endpoint ends with a null signer atom and the signature error. -/
theorem setPfp_sigFailure_resets_witness :
    envSigFail.sigOk = false ∧
    (setPfp envSigFail none "data" 7 0).outcome =
      some (.error "Failed to obtain signature from signer server") ∧
    signerAfter none (setPfp envSigFail none "data" 7 0).events = none :=
  ⟨rfl, (setPfp_sigFailure_resets envSigFail "data" 7 0 rfl).1,
    (setPfp_sigFailure_resets envSigFail "data" 7 0 rfl).2.1⟩

/-- C4 counterexample: with every poll response ok but pending, after
one poll iteration the run is still awaiting approval (outcome none,
the machine has not reached Completed), yet the credential cache
already holds the freshly generated private key. -/
theorem setPfp_cache_written_before_completed :
    (setPfp envBase none "data" 7 1).outcome = none ∧
    signerAfter none (setPfp envBase none "data" 7 1).events = some "0xpriv" ∧
    some "0xpriv" ≠ (none : Option String) := by
  refine ⟨rfl, rfl, by simp⟩

/-- C4 amended: the private key reaches the credential cache exactly
when the signed-key-request creation has succeeded, i.e. on entry to
AwaitingApproval, before any polling — not only at Completed.  Any
cache write of a key implies the signature and signed-key-request calls
succeeded and the written key is the fresh private key; if the
handshake fails before that point the cache ends empty; and on success
of those two calls the write appears in the trace immediately after the
signed-key-request creation, before every poll event. -/
theorem setPfp_cache_write_point (env : Env) (src : String) (fid fuel : Nat) :
    (∀ v, Ev.setSigner (some v) ∈ (setPfp env none src fid fuel).events →
      env.sigOk = true ∧ env.skrOk = true ∧ v = env.keypair.privHex) ∧
    ((env.sigOk = false ∨ env.skrOk = false) →
      signerAfter none (setPfp env none src fid fuel).events = none) ∧
    (env.sigOk = true → env.skrOk = true →
      ∃ rest, (setPfp env none src fid fuel).events =
        [Ev.generateKeypair,
         Ev.signatureRequest env.keypair.pubHex (env.now / 1000 + 60 * 60),
         Ev.createSignedKeyRequest
           (skrBody env.keypair.pubHex env.signature (env.now / 1000 + 60 * 60)),
         Ev.setSigner (some env.keypair.privHex),
         Ev.setDeepLink (some env.deeplinkUrl)] ++ rest) := by
  refine ⟨?_, ?_, ?_⟩
  · intro v hv
    cases hs : env.sigOk with
    | false => simp [setPfp, handshake, wrapCatch, catchTail, hs] at hv
    | true =>
      cases hk : env.skrOk with
      | false => simp [setPfp, handshake, wrapCatch, catchTail, hs, hk] at hv
      | true =>
        refine ⟨rfl, rfl, ?_⟩
        rcases hp : (poll env env.token 0 fuel).1 with - | res
        · simp [setPfp, handshake, hs, hk, hp] at hv
          rcases hv with hv | hv
          · exact hv
          · rcases poll_events_mem env env.token fuel 0 _ hv with h | h <;> simp at h
        · rcases res with er | u
          · simp [setPfp, handshake, wrapCatch, catchTail, hs, hk, hp] at hv
            rcases hv with hv | hv
            · exact hv
            · rcases poll_events_mem env env.token fuel 0 _ hv with h | h <;> simp at h
          · simp [setPfp, handshake, wrapCatch, hs, hk, hp] at hv
            rcases hv with hv | hv | hv | hv
            · exact hv
            · rcases poll_events_mem env env.token fuel 0 _ hv with h | h <;> simp at h
            · exact hv
            · rcases hv with hv | hv
              · rcases finishPfp_events_mem env src fid _ _ hv with h | ⟨b, h⟩ <;> simp at h
              · rcases catchTail_mem _ _ hv with h | ⟨m, h⟩ | ⟨m, h⟩ <;> simp at h
  · intro h
    rcases h with h | h
    · simp [setPfp, handshake, wrapCatch, catchTail, h, signerAfter]
    · cases hs : env.sigOk with
      | false => simp [setPfp, handshake, wrapCatch, catchTail, hs, signerAfter]
      | true => simp [setPfp, handshake, wrapCatch, catchTail, hs, h, signerAfter]
  · intro hs hk
    rcases hp : (poll env env.token 0 fuel).1 with - | res
    · exact ⟨(poll env env.token 0 fuel).2,
        by simp [setPfp, handshake, hs, hk, hp]⟩
    · rcases res with er | u
      · exact ⟨(poll env env.token 0 fuel).2 ++ catchTail (.error er),
          by simp [setPfp, handshake, wrapCatch, hs, hk, hp]⟩
      · exact ⟨(poll env env.token 0 fuel).2
            ++ [Ev.setSigner (some env.keypair.privHex), Ev.setDeepLink none]
            ++ (finishPfp env src fid (some env.keypair.privHex)).2
            ++ catchTail (finishPfp env src fid (some env.keypair.privHex)).1,
          by simp [setPfp, handshake, wrapCatch, hs, hk, hp]⟩

/-- Witness for C4 amended: on the all-successful pending environment
any cached key is the fresh private key, and the trace starts with the
handshake prefix ending in the cache write before the poll events. -/
theorem setPfp_cache_write_point_witness :
    signerAfter none (setPfp envSigFail none "data" 7 1).events = none ∧
    ∃ rest, (setPfp envBase none "data" 7 1).events =
      [Ev.generateKeypair,
       Ev.signatureRequest envBase.keypair.pubHex (envBase.now / 1000 + 60 * 60),
       Ev.createSignedKeyRequest
         (skrBody envBase.keypair.pubHex envBase.signature (envBase.now / 1000 + 60 * 60)),
       Ev.setSigner (some envBase.keypair.privHex),
       Ev.setDeepLink (some envBase.deeplinkUrl)] ++ rest :=
  ⟨(setPfp_cache_write_point envSigFail "data" 7 1).2.1 (Or.inl rfl),
   (setPfp_cache_write_point envBase "data" 7 1).2.2 rfl rfl⟩

/-- C5 counterexample: the signed-key-request body the code submits
carries five fields, not four: redirectUrl is sent alongside key,
requestFid, signature and deadline. -/
theorem skr_body_fields_counterexample :
    (skrBodiesOf (setPfp envSkrFail none "data" 7 0).events).map (fun b => b.map Prod.fst) =
      [["key", "requestFid", "signature", "deadline", "redirectUrl"]] ∧
    ¬ ["key", "requestFid", "signature", "deadline", "redirectUrl"]
        = ["key", "requestFid", "signature", "deadline"] := by
  exact ⟨rfl, by decide⟩

/-- C5 amended: whenever the signature step succeeded, the
signed-key-request creation call submits exactly the fields key (the
hex public key of the fresh keypair), requestFid (the hardcoded
requester fid 990688), signature (the value from the signature
endpoint), deadline (the expiry sent to the signature endpoint) and
redirectUrl (a fixed literal); on success the response's deeplinkUrl is
surfaced. -/
theorem skr_request_body (env : Env) (src : String) (fid fuel : Nat)
    (hs : env.sigOk = true) :
    skrBodiesOf (setPfp env none src fid fuel).events =
      [[("key", JVal.str env.keypair.pubHex),
        ("requestFid", JVal.num 990688),
        ("signature", JVal.str env.signature),
        ("deadline", JVal.num (env.now / 1000 + 60 * 60)),
        ("redirectUrl", JVal.str "https://warpcast.com/?launchFrameDomain=colorino.site")]] ∧
    (env.skrOk = true →
      Ev.setDeepLink (some env.deeplinkUrl) ∈ (setPfp env none src fid fuel).events) := by
  constructor
  · cases hk : env.skrOk with
    | false =>
      simp [setPfp, handshake, wrapCatch, catchTail, hs, hk, skrBodiesOf, skrBody,
        requestFid, skrRedirectUrl]
    | true =>
      rcases hp : (poll env env.token 0 fuel).1 with - | res
      · simp [setPfp, handshake, hs, hk, hp, skrBodiesOf, skrBody, requestFid,
          skrRedirectUrl]
        intro a ha
        rcases poll_events_mem env env.token fuel 0 a ha with rfl | rfl <;> rfl
      · rcases res with er | u
        · simp [setPfp, handshake, wrapCatch, hs, hk, hp, skrBodiesOf, skrBody,
            requestFid, skrRedirectUrl]
          refine ⟨fun a ha => ?_, fun a ha => ?_⟩
          · rcases poll_events_mem env env.token fuel 0 a ha with rfl | rfl <;> rfl
          · rcases catchTail_mem _ a ha with rfl | ⟨m, rfl⟩ | ⟨m, rfl⟩ <;> rfl
        · simp [setPfp, handshake, wrapCatch, hs, hk, hp, skrBodiesOf, skrBody,
            requestFid, skrRedirectUrl]
          refine ⟨fun a ha => ?_, fun a ha => ?_, fun a ha => ?_⟩
          · rcases poll_events_mem env env.token fuel 0 a ha with rfl | rfl <;> rfl
          · rcases finishPfp_events_mem env src fid _ a ha with rfl | ⟨b, rfl⟩ <;> rfl
          · rcases catchTail_mem _ a ha with rfl | ⟨m, rfl⟩ | ⟨m, rfl⟩ <;> rfl
  · intro hk
    rcases hp : (poll env env.token 0 fuel).1 with - | res
    · simp [setPfp, handshake, hs, hk, hp]
    · rcases res with er | u
      · simp [setPfp, handshake, wrapCatch, hs, hk, hp]
      · simp [setPfp, handshake, wrapCatch, hs, hk, hp]

/-- Witness for C5 amended: the concrete all-successful environment
emits exactly the five-field body built from its keypair, signature and
deadline, and surfaces its deep link. -/
theorem skr_request_body_witness :
    skrBodiesOf (setPfp envBase none "data" 7 1).events =
      [[("key", JVal.str "0xpub"),
        ("requestFid", JVal.num 990688),
        ("signature", JVal.str "0xsig"),
        ("deadline", JVal.num 1700003600),
        ("redirectUrl", JVal.str "https://warpcast.com/?launchFrameDomain=colorino.site")]] ∧
    Ev.setDeepLink (some "farcaster://signed-key-request?token=tok1")
      ∈ (setPfp envBase none "data" 7 1).events :=
  ⟨(skr_request_body envBase "data" 7 1 rfl).1,
   (skr_request_body envBase "data" 7 1 rfl).2 rfl⟩

/-- C8 counterexample: a credential cached by an earlier successful
handshake does NOT remain cached when the upload step fails: the catch
block of setPfp sets the signer atom to null on any error. -/
theorem cached_credential_cleared_counterexample :
    (setPfp envUploadFail (some "0xcached") "data" 7 0).outcome =
      some (.error "Upload failed: Server Error") ∧
    signerAfter (some "0xcached") (setPfp envUploadFail (some "0xcached") "data" 7 0).events
      = none ∧
    (none : Option String) ≠ some "0xcached" := by
  exact ⟨rfl, rfl, by simp⟩

/-- C8 amended: every error of a setPfp run, on any path and at any
remote call, aborts the flow with the error toast surfaced and the
signer atom null afterwards (the catch handler clears the credential
cache instead of leaving it intact).  In particular, on the
cached-credential path an upload failure stops after the upload call
and a change-pfp failure stops after the upload and change-pfp calls —
in both cases the previously cached credential is gone.  The
downloadFilteredImage flow never writes the cache, so its failures do
leave prior state intact. -/
theorem setPfp_remote_failure_aborts (env : Env) (s src : String) (fid fuel : Nat) :
    (∀ sv e, (setPfp env sv src fid fuel).outcome = some (.error e) →
      Ev.toastError ("Error setting profile picture: " ++ e)
        ∈ (setPfp env sv src fid fuel).events ∧
      signerAfter sv (setPfp env sv src fid fuel).events = none) ∧
    (env.uploadOk = false →
      (setPfp env (some s) src fid fuel).outcome =
        some (.error ("Upload failed: " ++ env.uploadStatusText)) ∧
      callsOf (setPfp env (some s) src fid fuel).events = [Ev.upload src]) ∧
    (env.uploadOk = true → env.changeOk = false →
      (setPfp env (some s) src fid fuel).outcome =
        some (.error ("Changing pfp failed: " ++ env.changeStatusText)) ∧
      callsOf (setPfp env (some s) src fid fuel).events =
        [Ev.upload src,
         Ev.changePfp [("privateKey", .str s), ("pfp", .str (imageUrlOfHash env.uploadHash)),
           ("fid", .num fid)]]) ∧
    signerAfter (some s) (downloadFilteredImage env src).2 = some s := by
  refine ⟨?_, ?_, ?_, ?_⟩
  · intro sv e he
    cases sv with
    | some s' =>
      have hout : (finishPfp env src fid (some s')).1 = .error e := by
        simpa [setPfp, wrapCatch] using he
      constructor
      · simp [setPfp, wrapCatch, hout, catchTail]
      · simp only [setPfp, wrapCatch]
        rw [hout, signerAfter_append]
        rfl
    | none =>
      rcases hh : (handshake env fuel).1 with - | res
      · exfalso
        simp [setPfp, hh] at he
      · rcases res with er | pk
        · have her : er = e := by
            simpa [setPfp, wrapCatch, hh] using he
          subst her
          constructor
          · simp [setPfp, wrapCatch, hh, catchTail]
          · simp only [setPfp, hh, wrapCatch]
            rw [signerAfter_append]
            rfl
        · have hout : (finishPfp env src fid (some pk)).1 = .error e := by
            simpa [setPfp, wrapCatch, hh] using he
          constructor
          · simp [setPfp, wrapCatch, hh, hout, catchTail]
          · simp only [setPfp, hh, wrapCatch]
            rw [hout, signerAfter_append]
            rfl
  · intro hu
    constructor <;>
      simp [setPfp, finishPfp, wrapCatch, catchTail, hu, callsOf, isCall]
  · intro hu hc
    constructor <;>
      simp [setPfp, finishPfp, wrapCatch, catchTail, hu, hc, callsOf, isCall]
  · by_cases hu : env.uploadOk = false <;>
      simp [downloadFilteredImage, hu, signerAfter]

/-- Witness for C8 amended: the failing-upload environment aborts after
the upload call, and the failing-change-pfp environment aborts after
both calls with the cached credential cleared. -/
theorem setPfp_remote_failure_aborts_witness :
    envUploadFail.uploadOk = false ∧
    envChangeFail.changeOk = false ∧
    callsOf (setPfp envUploadFail (some "0xcached") "data" 7 0).events = [Ev.upload "data"] ∧
    (setPfp envChangeFail (some "0xcached") "data" 7 0).outcome =
      some (.error "Changing pfp failed: Server Error") ∧
    signerAfter (some "0xcached")
      (setPfp envChangeFail (some "0xcached") "data" 7 0).events = none := by
  have hchange := (setPfp_remote_failure_aborts envChangeFail "0xcached" "data" 7 0).2.2.1
    rfl rfl
  refine ⟨rfl, rfl,
    ((setPfp_remote_failure_aborts envUploadFail "0xcached" "data" 7 0).2.1 rfl).2,
    hchange.1,
    ((setPfp_remote_failure_aborts envChangeFail "0xcached" "data" 7 0).1
      (some "0xcached") "Changing pfp failed: Server Error" hchange.1).2⟩

/-- C10: for every successful upload whose response carries hash h, the
URL used by the flow is the image-host origin followed by "/", h and
".png": it is submitted to change-pfp as the pfp field, and
downloadFilteredImage opens exactly that URL. -/
theorem upload_hash_to_url (env : Env) (s src : String) (fid fuel : Nat)
    (hu : env.uploadOk = true) :
    changePfpBodiesOf (setPfp env (some s) src fid fuel).events =
      [[("privateKey", JVal.str s),
        ("pfp", JVal.str ("https://images.colorino.site/" ++ env.uploadHash ++ ".png")),
        ("fid", JVal.num fid)]] ∧
    (downloadFilteredImage env src).1 =
      .ok ("https://images.colorino.site/" ++ env.uploadHash ++ ".png") ∧
    Ev.openUrl ("https://images.colorino.site/" ++ env.uploadHash ++ ".png")
      ∈ (downloadFilteredImage env src).2 := by
  cases hc : env.changeOk with
  | false =>
    refine ⟨?_, ?_, ?_⟩ <;>
      simp [setPfp, finishPfp, wrapCatch, catchTail, downloadFilteredImage, hu, hc,
        changePfpBodiesOf, imageUrlOfHash]
  | true =>
    refine ⟨?_, ?_, ?_⟩ <;>
      simp [setPfp, finishPfp, wrapCatch, catchTail, downloadFilteredImage, hu, hc,
        changePfpBodiesOf, imageUrlOfHash]

/-- Witness for C10: hash "abc123" yields
https://images.colorino.site/abc123.png in both flows. -/
theorem upload_hash_to_url_witness :
    envBase.uploadOk = true ∧
    changePfpBodiesOf (setPfp envBase (some "0xcached") "data" 7 0).events =
      [[("privateKey", JVal.str "0xcached"),
        ("pfp", JVal.str "https://images.colorino.site/abc123.png"),
        ("fid", JVal.num 7)]] ∧
    (downloadFilteredImage envBase "data").1 =
      .ok "https://images.colorino.site/abc123.png" :=
  ⟨rfl, (upload_hash_to_url envBase "0xcached" "data" 7 0 rfl).1,
    (upload_hash_to_url envBase "0xcached" "data" 7 0 rfl).2.1⟩

/-- C6: whenever a render produces a canvas, the crop drawn onto it is
the centered square crop of the source: for width > height the source
rect starts at ((width - height) / 2, 0) with size height; for
height > width it starts at (0, (height - width) / 2) with size width;
and the canvas is a square of that crop size. -/
theorem renderFinalImage_crop_spec (env : RenderEnv) (color : String) (st : Sticker)
    (src u : String) (c : Canvas)
    (hu : env.pfpUrl = some u)
    (hc : (renderFinalImage env color st src).canvas = some c) :
    (env.naturalHeight < env.naturalWidth →
      c.width = env.naturalHeight ∧ c.height = env.naturalHeight ∧
      c.ops[1]? = some (DrawOp.drawImageCrop u
        ((env.naturalWidth - env.naturalHeight) / 2) 0
        env.naturalHeight env.naturalHeight 0 0 env.naturalHeight env.naturalHeight)) ∧
    (env.naturalWidth < env.naturalHeight →
      c.width = env.naturalWidth ∧ c.height = env.naturalWidth ∧
      c.ops[1]? = some (DrawOp.drawImageCrop u 0
        ((env.naturalHeight - env.naturalWidth) / 2)
        env.naturalWidth env.naturalWidth 0 0 env.naturalWidth env.naturalWidth)) := by
  by_cases h1 : env.imgLoadOk = false
  · simp [renderFinalImage, hu, h1] at hc
  · by_cases h2 : env.ctxAvailable = false
    · simp [renderFinalImage, hu, h1, h2] at hc
    · cases h3 : st.visible && env.containerPresent with
      | true =>
        by_cases h4 : env.stickerLoadOk = false
        · simp [renderFinalImage, hu, h1, h2, h3, h4] at hc
        · simp [renderFinalImage, hu, h1, h2, h3, h4] at hc
          subst hc
          refine ⟨fun hlt => ?_, fun hlt => ?_⟩
          · have hcr : cropRegion env.naturalWidth env.naturalHeight =
                ((env.naturalWidth - env.naturalHeight) / 2, 0, env.naturalHeight) := by
              rw [cropRegion, if_pos hlt.le]
            simp [hcr]
          · have hcr : cropRegion env.naturalWidth env.naturalHeight =
                (0, (env.naturalHeight - env.naturalWidth) / 2, env.naturalWidth) := by
              rw [cropRegion, if_neg (not_le.mpr hlt)]
            simp [hcr]
      | false =>
        simp [renderFinalImage, hu, h1, h2, h3] at hc
        subst hc
        refine ⟨fun hlt => ?_, fun hlt => ?_⟩
        · have hcr : cropRegion env.naturalWidth env.naturalHeight =
              ((env.naturalWidth - env.naturalHeight) / 2, 0, env.naturalHeight) := by
            rw [cropRegion, if_pos hlt.le]
          simp [hcr]
        · have hcr : cropRegion env.naturalWidth env.naturalHeight =
              (0, (env.naturalHeight - env.naturalWidth) / 2, env.naturalWidth) := by
            rw [cropRegion, if_neg (not_le.mpr hlt)]
          simp [hcr]

/-- Witness for C6: the 800 x 600 landscape source yields the 600 x 600
canvas with the crop starting at x offset 100. -/
theorem renderFinalImage_crop_spec_witness :
    (renderFinalImage renvL "red" stHidden "old").canvas = some cL ∧
    cL.width = 600 ∧ cL.height = 600 := by
  have hc : (renderFinalImage renvL "red" stHidden "old").canvas = some cL := by
    norm_num [renderFinalImage, cropRegion, renvL, stHidden, cL, colorFilters]
  have h := (renderFinalImage_crop_spec renvL "red" stHidden "old"
      "https://pfp.example/a.png" cL rfl hc).1 (by norm_num [renvL])
  exact ⟨hc, h.1, h.2.1⟩

/-- C7: when a visible sticker is composited, it is drawn at
(x S / D, y S / D) with size (w S / D, h S / D) where S is the square
canvas side and D the displayed container width: every component is
scaled by the single factor S / D. -/
theorem renderFinalImage_sticker_scaling (env : RenderEnv) (color : String) (st : Sticker)
    (src u : String)
    (hu : env.pfpUrl = some u) (hl : env.imgLoadOk = true) (hctx : env.ctxAvailable = true)
    (hv : st.visible = true) (hcp : env.containerPresent = true)
    (hsl : env.stickerLoadOk = true) :
    ∃ c, (renderFinalImage env color st src).canvas = some c ∧
      c.height = c.width ∧
      c.ops[2]? = some (DrawOp.drawImageRect "sticker.png"
        (st.x * c.width / env.rectWidth) (st.y * c.width / env.rectWidth)
        (st.width * c.width / env.rectWidth) (st.height * c.width / env.rectWidth)) := by
  refine ⟨⟨(cropRegion env.naturalWidth env.naturalHeight).2.2,
      (cropRegion env.naturalWidth env.naturalHeight).2.2,
      [DrawOp.setFilter (colorFilters color),
       DrawOp.drawImageCrop u (cropRegion env.naturalWidth env.naturalHeight).1
         (cropRegion env.naturalWidth env.naturalHeight).2.1
         (cropRegion env.naturalWidth env.naturalHeight).2.2
         (cropRegion env.naturalWidth env.naturalHeight).2.2 0 0
         (cropRegion env.naturalWidth env.naturalHeight).2.2
         (cropRegion env.naturalWidth env.naturalHeight).2.2,
       DrawOp.drawImageRect "sticker.png"
         (st.x * ((cropRegion env.naturalWidth env.naturalHeight).2.2 / env.rectWidth))
         (st.y * ((cropRegion env.naturalWidth env.naturalHeight).2.2 / env.rectWidth))
         (st.width * ((cropRegion env.naturalWidth env.naturalHeight).2.2 / env.rectWidth))
         (st.height * ((cropRegion env.naturalWidth env.naturalHeight).2.2 / env.rectWidth))]⟩,
    ?_, rfl, ?_⟩
  · simp [renderFinalImage, hu, hl, hctx, hv, hcp, hsl]
  · simp [mul_div_assoc]

/-- Witness for C7: the visible default sticker on the healthy landscape
environment is drawn scaled by canvas side over container width. -/
theorem renderFinalImage_sticker_scaling_witness :
    ∃ c, (renderFinalImage renvL "red" stShown "old").canvas = some c ∧
      c.height = c.width ∧
      c.ops[2]? = some (DrawOp.drawImageRect "sticker.png"
        (stShown.x * c.width / renvL.rectWidth) (stShown.y * c.width / renvL.rectWidth)
        (stShown.width * c.width / renvL.rectWidth)
        (stShown.height * c.width / renvL.rectWidth)) :=
  renderFinalImage_sticker_scaling renvL "red" stShown "old" "https://pfp.example/a.png"
    rfl rfl rfl rfl rfl rfl

/-- C9: a compositing run that fails (missing PFP URL, image or sticker
load failure, or missing 2D context) surfaces the error and leaves
renderedSrc unchanged: the last successfully rendered composite stays
displayed and no canvas is produced, so no partial output is shown. -/
theorem renderFinalImage_failure_preserves (env : RenderEnv) (color : String) (st : Sticker)
    (src e : String)
    (h : (renderFinalImage env color st src).outcome = .error e) :
    (renderFinalImage env color st src).renderedSrc = src ∧
    (renderFinalImage env color st src).canvas = none := by
  rcases henv : env.pfpUrl with - | u
  · simp [renderFinalImage, henv]
  · by_cases h1 : env.imgLoadOk = false
    · simp [renderFinalImage, henv, h1]
    · by_cases h2 : env.ctxAvailable = false
      · simp [renderFinalImage, henv, h1, h2]
      · cases h3 : st.visible && env.containerPresent with
        | true =>
          by_cases h4 : env.stickerLoadOk = false
          · simp [renderFinalImage, henv, h1, h2, h3, h4]
          · exfalso
            simp [renderFinalImage, henv, h1, h2, h3, h4] at h
        | false =>
          exfalso
          simp [renderFinalImage, henv, h1, h2, h3] at h

/-- Witness for C9: with no 2D context available the run errors and the
previous composite "lastGood" stays displayed. -/
theorem renderFinalImage_failure_preserves_witness :
    (renderFinalImage renvNoCtx "red" stHidden "lastGood").outcome =
      .error "Could not get 2D context" ∧
    (renderFinalImage renvNoCtx "red" stHidden "lastGood").renderedSrc = "lastGood" :=
  ⟨rfl, (renderFinalImage_failure_preserves renvNoCtx "red" stHidden "lastGood"
      "Could not get 2D context" rfl).1⟩

end Colorino
